import Mathlib

/-!
# Browser surface controller (modules/skybrowser/src/browser.cpp)

A shallow embedding of the class `openspace::Browser`.  The member variables of
the class become the fields of the structure `Browser`; every member function
becomes a function on that structure which returns the new state together with
the list of effects it issued on its collaborators (the browser instance, the
web browser module, the render handler, the GL texture and the log), in the
order in which the source issues them.

A call through `_browserInstance` when the pointer has been reset is undefined
behaviour in the source; the embedding returns `none` there.
-/

namespace OpenSpace

/-! ## Data model -/

/-- Pixel dimensions, the `glm::vec2` held by the dimensions property.  The two
components are modelled as integers (pixel counts); the only operations the
source applies to them are equality, the comparison with zero and the conversion
to the integer size of the texture. -/
structure Vec2 where
  x : Int
  y : Int
deriving DecidableEq, Repr

/-- Both components strictly positive: the guard
`value().x > 0 && value().y > 0` of `Browser::update`. -/
def Vec2.isPositive (v : Vec2) : Bool :=
  decide (0 < v.x) && decide (0 < v.y)

/-- Unsigned three component size of a texture (`glm::uvec3`). -/
structure UVec3 where
  x : Nat
  y : Nat
  z : Nat
deriving DecidableEq, Repr

/-- Conversion of a signed component to an unsigned 32 bit component (a negative
value wraps around). -/
def toUInt32 (v : Int) : Nat :=
  (v % 4294967296).toNat

/-- The size handed to the texture constructor in `Browser::initializeGL`:
`glm::uvec3(glm::ivec2(_browserPixeldimensions.value()), 1)`. -/
def textureSize (v : Vec2) : UVec3 :=
  { x := toUInt32 v.x, y := toUInt32 v.y, z := 1 }

/-- A `ghoul::opengl::Texture`: its size and its GL object name. -/
structure Texture where
  dimensions : UVec3
  name : Nat
deriving DecidableEq, Repr

/-- The `Parameters` record baked from the configuration dictionary. -/
structure Parameters where
  dimensions : Option Vec2
  url : Option String
  reload : Option Bool
deriving DecidableEq, Repr

/-- Effects issued on the collaborators of the controller. -/
inductive Event where
  /-- `BrowserInstance::initialize()` -/
  | browserInitialize
  /-- `BrowserInstance::loadUrl(url)` -/
  | loadUrl (url : String)
  /-- `BrowserInstance::reshape(dimensions)` -/
  | reshape (dimensions : Vec2)
  /-- `BrowserInstance::reloadBrowser()` -/
  | reloadBrowser
  /-- `BrowserInstance::close(force)` -/
  | close (force : Bool)
  /-- `WebBrowserModule::addBrowser(instance)` -/
  | addBrowser
  /-- `WebBrowserModule::removeBrowser(instance)` -/
  | removeBrowser
  /-- `WebRenderHandler::updateTexture()` -/
  | updateTexture
  /-- A texture of the given size is created (`std::make_unique<Texture>`). -/
  | textureCreated (dimensions : UVec3)
  /-- The texture with the given GL name is destroyed (the `unique_ptr` drops it). -/
  | textureDestroyed (name : Nat)
  /-- `LDEBUG(message)` -/
  | logDebug (message : String)
  /-- `LWARNING(message)` -/
  | logWarning (message : String)
deriving DecidableEq, Repr

/-- Whether the effect is a `reshape` call. -/
def Event.isReshape : Event → Bool
  | .reshape _ => true
  | _ => false

/-- The state of `Browser::RenderHandler` that the controller reads or writes.
`texture` is the GL name stored by `setTexture`; `isTextureReady` is the answer
of `isTextureReady()`; `frameSize` is the size of the latest frame painted by the
content instance, if any.  The base class `WebRenderHandler` is not part of the
sources: the two last fields are owned by it and are never written by the
controller. -/
structure RenderHandler where
  texture : Nat
  isTextureReady : Bool
  frameSize : Option (Nat × Nat)
deriving DecidableEq, Repr

/-- Modelled from the spec: a render handler that has just been created, for which
the declaration of `WebRenderHandler` is missing.  The surface is "uninitialized":
it has no texture, has received no frame and does not report ready. -/
def RenderHandler.fresh : RenderHandler :=
  { texture := 0, isTextureReady := false, frameSize := none }

/-- `Browser::RenderHandler::setTexture(GLuint t)`. -/
def RenderHandler.setTexture (h : RenderHandler) (t : Nat) : RenderHandler :=
  { h with texture := t }

/-- The member variables of `openspace::Browser`.  `browserInstance` tells whether
`_browserInstance` holds an instance (it is reset by `deinitializeGL`). -/
structure Browser where
  url : String
  browserPixeldimensions : Vec2
  texture : Option Texture
  isUrlDirty : Bool
  isDimensionsDirty : Bool
  shouldReload : Bool
  renderHandler : RenderHandler
  browserInstance : Bool
deriving DecidableEq, Repr

/-! ## The dimensions property -/

/-- Modelled from the spec: the clamping of a numeric property to its declared
range `[lo, hi]` ("values outside a declared [min,max] range for numeric
properties are clamped, not rejected"); the property class is missing from the
sources. -/
def clampDimensions (lo hi v : Vec2) : Vec2 :=
  { x := max lo.x (min hi.x v.x), y := max lo.y (min hi.y v.y) }

/-- Modelled from the spec: the range the constructor declares for the dimensions
property, `glm::vec2(10.f)` to `glm::vec2(3000.f)`, applied as a clamp. -/
def storeClamped (v : Vec2) : Vec2 :=
  clampDimensions { x := 10, y := 10 } { x := 3000, y := 3000 } v

/-- Modelled from the spec: the assignment `_browserPixeldimensions = v` once the
constructor has registered the change callback of line 104; the property class
is missing from the sources.  The property stores `store v`, where `store` is
what the property class makes of an assigned value (the identity if the declared
range is not enforced on assignment, `storeClamped` if it is), and runs the
callback `_isDimensionsDirty = true` only if the stored value differs from the
previous one. -/
def Browser.setBrowserPixelDimensions (store : Vec2 → Vec2) (v : Vec2) (s : Browser) :
    Browser :=
  if store v = s.browserPixeldimensions then s
  else { s with browserPixeldimensions := store v, isDimensionsDirty := true }

/-- An assignment to the dimensions property while no change callback is
registered (the constructor, lines 98 and 101): the previous value is replaced by
what the property class makes of the assigned value. -/
def assignDimensions (store : Vec2 → Vec2) (v : Vec2) (_previous : Vec2) : Vec2 :=
  store v

/-! ## Member functions -/

/-- Modelled from the spec: the value of the three flags `_isUrlDirty`,
`_isDimensionsDirty` and `_shouldReload` before the constructor body runs; the
class declaration (browser.h) is missing from the sources.  The flags are "set by
property-change callbacks", so they start cleared. -/
def initialFlag : Bool :=
  false

/-- Modelled from the spec: the value of the URL property built by `_url(UrlInfo)`;
the property class is missing from the sources ("default = empty/unset"). -/
def defaultUrl : String :=
  ""

/-- The default of the dimensions property, `glm::vec2(500.f)` in the member
initialiser of the constructor. -/
def defaultDimensions : Vec2 :=
  { x := 500, y := 500 }

/-- The constructor `Browser::Browser(dictionary)`, for a dictionary that bakes to
the record `dictionary`.  `windowDimensions` is the answer of
`global::windowDelegate->currentSubwindowSize()` and `webBrowser` tells whether
`global::moduleEngine->module<WebBrowserModule>()` finds the module.  The
assignments to the properties happen before the change callbacks are registered
(lines 103 to 105), so they set no flag. -/
def Browser.create (store : Vec2 → Vec2) (dictionary : Parameters)
    (windowDimensions : Vec2) (webBrowser : Bool) : Browser × List Event :=
  -- member initialisers: _url(UrlInfo), _browserPixeldimensions(DimensionsInfo, 500, 10, 3000)
  let url0 : String := defaultUrl
  let dim0 : Vec2 := defaultDimensions
  -- if (dictionary.hasValue<std::string>(UrlInfo.identifier)) _url = ...
  let url1 : String :=
    match dictionary.url with
    | some u => u
    | none => url0
  -- _url = p.url.value_or(_url);
  let url2 : String := dictionary.url.getD url1
  -- _browserPixeldimensions = p.dimensions.value_or(_browserPixeldimensions);
  let dim1 : Vec2 := assignDimensions store (dictionary.dimensions.getD dim0) dim0
  -- glm::vec2 windowDimensions = global::windowDelegate->currentSubwindowSize();
  -- _browserPixeldimensions = windowDimensions;
  let dim2 : Vec2 := assignDimensions store windowDimensions dim1
  let s : Browser :=
    { url := url2
      browserPixeldimensions := dim2
      texture := none
      isUrlDirty := initialFlag
      isDimensionsDirty := initialFlag
      shouldReload := initialFlag
      renderHandler := RenderHandler.fresh
      browserInstance := true }
  -- if (webBrowser) webBrowser->addBrowser(_browserInstance.get());
  (s, if webBrowser then [Event.addBrowser] else [])

/-- `Browser::isReady()`: `return _texture.get();`. -/
def Browser.isReady (s : Browser) : Bool :=
  s.texture.isSome

/-- `Browser::initializeGL()`.  `glName` is the GL object name of the texture that
is created.  Returns the boolean result, the new state and the effects. -/
def Browser.initializeGL (glName : Nat) (s : Browser) :
    Option (Bool × Browser × List Event) :=
  -- _texture = std::make_unique<Texture>(uvec3(ivec2(dimensions), 1), GL_TEXTURE_2D);
  let tex : Texture := { dimensions := textureSize s.browserPixeldimensions, name := glName }
  let e1 : List Event :=
    Event.textureCreated tex.dimensions ::
      (match s.texture with
       | some old => [Event.textureDestroyed old.name]
       | none => [])
  let s1 : Browser := { s with texture := some tex }
  -- _renderHandler->setTexture(*_texture);
  let s2 : Browser := { s1 with renderHandler := s1.renderHandler.setTexture tex.name }
  -- _browserInstance->initialize(); _browserInstance->loadUrl(_url);
  if s2.browserInstance then
    -- return isReady();
    some (s2.isReady, s2, e1 ++ [Event.browserInitialize, Event.loadUrl s2.url])
  else
    none

/-- `Browser::deinitializeGL()`.  `webBrowser` tells whether the module engine
finds the `WebBrowserModule`. -/
def Browser.deinitializeGL (webBrowser : Bool) (s : Browser) :
    Option (Bool × Browser × List Event) :=
  -- _renderHandler->setTexture(0);
  let s1 : Browser := { s with renderHandler := s.renderHandler.setTexture 0 }
  -- _texture = nullptr;
  let e1 : List Event :=
    match s1.texture with
    | some old => [Event.textureDestroyed old.name]
    | none => []
  let s2 : Browser := { s1 with texture := none }
  -- LDEBUG(fmt::format("Deinitializing browser: ...", _url.value()));
  let e2 : List Event := e1 ++ [Event.logDebug ("Deinitializing browser: " ++ s2.url)]
  -- _browserInstance->close(true);
  if s2.browserInstance then
    let e3 : List Event := e2 ++ [Event.close true]
    if webBrowser then
      -- webBrowser->removeBrowser(_browserInstance.get()); _browserInstance.reset();
      some (true, { s2 with browserInstance := false }, e3 ++ [Event.removeBrowser])
    else
      -- LWARNING("Could not find WebBrowserModule");
      some (true, s2, e3 ++ [Event.logWarning "Could not find WebBrowserModule"])
  else
    none

/-- `Browser::render()`.  `updateTexture` is what `WebRenderHandler::updateTexture()`
(missing from the sources) does to the state of the render handler. -/
def Browser.render (updateTexture : RenderHandler → RenderHandler) (s : Browser) :
    Browser × List Event :=
  -- if (!_renderHandler->isTextureReady()) return;
  if !s.renderHandler.isTextureReady then
    (s, [])
  else
    -- _renderHandler->updateTexture();
    ({ s with renderHandler := updateTexture s.renderHandler }, [Event.updateTexture])

/-- `Browser::update()`. -/
def Browser.update (s : Browser) : Option (Browser × List Event) :=
  -- if (_isUrlDirty) { _browserInstance->loadUrl(_url); _isUrlDirty = false; }
  let r1 : Option (Browser × List Event) :=
    if s.isUrlDirty then
      if s.browserInstance then
        some ({ s with isUrlDirty := false }, [Event.loadUrl s.url])
      else none
    else some (s, [])
  r1.bind fun (s1, e1) =>
    -- if (_isDimensionsDirty) { if (x > 0 && y > 0) { reshape(...); flag = false; } }
    let r2 : Option (Browser × List Event) :=
      if s1.isDimensionsDirty then
        if s1.browserPixeldimensions.isPositive then
          if s1.browserInstance then
            some ({ s1 with isDimensionsDirty := false },
              e1 ++ [Event.reshape s1.browserPixeldimensions])
          else none
        else some (s1, e1)
      else some (s1, e1)
    r2.bind fun (s2, e2) =>
      -- if (_shouldReload) { _browserInstance->reloadBrowser(); _shouldReload = false; }
      if s2.shouldReload then
        if s2.browserInstance then
          some ({ s2 with shouldReload := false }, e2 ++ [Event.reloadBrowser])
        else none
      else some (s2, e2)

/-- The effect of `n` consecutive calls of `update()` with nothing in between: the
final state and all effects issued, in order. -/
def Browser.updates : Nat → Browser → Option (Browser × List Event)
  | 0, s => some (s, [])
  | n + 1, s =>
    (Browser.update s).bind fun (s1, e1) =>
      (Browser.updates n s1).bind fun (s2, e2) => some (s2, e1 ++ e2)

/-! ## Sample inputs -/

/-- The configuration record `dimensions = (500,500), url = "a.test"`. -/
def sampleParameters : Parameters :=
  { dimensions := some { x := 500, y := 500 }, url := some "a.test", reload := none }

/-- The configuration record `reload = true`. -/
def sampleReloadParameters : Parameters :=
  { dimensions := none, url := none, reload := some true }

/-- A host window of 1920 by 1080 pixels. -/
def sampleWindow : Vec2 :=
  { x := 1920, y := 1080 }

/-- An initialized controller with all three flags set and target dimensions
(640,480). -/
def samplePending : Browser :=
  { url := "a.test"
    browserPixeldimensions := { x := 640, y := 480 }
    texture := some { dimensions := { x := 500, y := 500, z := 1 }, name := 7 }
    isUrlDirty := true
    isDimensionsDirty := true
    shouldReload := true
    renderHandler := { texture := 7, isTextureReady := false, frameSize := none }
    browserInstance := true }

/-- An initialized controller whose dimensions flag is set while the target
dimensions are (0,500). -/
def sampleDeferred : Browser :=
  { url := "a.test"
    browserPixeldimensions := { x := 0, y := 500 }
    texture := some { dimensions := { x := 500, y := 500, z := 1 }, name := 7 }
    isUrlDirty := true
    isDimensionsDirty := true
    shouldReload := false
    renderHandler := { texture := 7, isTextureReady := false, frameSize := none }
    browserInstance := true }

/-- An initialized controller with no flag set, a 500 by 500 texture, a render
handler that reports ready and a latest frame of 640 by 480. -/
def sampleReady : Browser :=
  { url := "a.test"
    browserPixeldimensions := { x := 500, y := 500 }
    texture := some { dimensions := { x := 500, y := 500, z := 1 }, name := 7 }
    isUrlDirty := false
    isDimensionsDirty := false
    shouldReload := false
    renderHandler := { texture := 7, isTextureReady := true, frameSize := some (640, 480) }
    browserInstance := true }

/-! ## Reconciliation: `update()` -/

/-- The result of `update()` in closed form, for a controller that holds its
browser instance. -/
theorem Browser.update_eq (s : Browser) (hi : s.browserInstance = true) :
    Browser.update s = some
      ({ s with
          isUrlDirty := false
          isDimensionsDirty := s.isDimensionsDirty && !s.browserPixeldimensions.isPositive
          shouldReload := false },
       (if s.isUrlDirty then [Event.loadUrl s.url] else []) ++
       (if s.isDimensionsDirty && s.browserPixeldimensions.isPositive
          then [Event.reshape s.browserPixeldimensions] else []) ++
       (if s.shouldReload then [Event.reloadBrowser] else [])) := by
  obtain ⟨url, dims, tex, fu, fd, fr, rh, inst⟩ := s
  simp only at hi
  subst hi
  cases fu <;> cases fd <;> cases fr <;> cases hp : dims.isPositive <;>
    simp [Browser.update, hp]

/-- A controller whose URL and reload flags are cleared and whose dimensions flag
cannot be served is left alone by `update()`, which then issues nothing. -/
theorem Browser.update_settled (s : Browser) (hu : s.isUrlDirty = false)
    (hd : (s.isDimensionsDirty && s.browserPixeldimensions.isPositive) = false)
    (hr : s.shouldReload = false) :
    Browser.update s = some (s, []) := by
  obtain ⟨url, dims, tex, fu, fd, fr, rh, inst⟩ := s
  simp only at hu hd hr
  subst hu hr
  cases fd <;> cases hp : dims.isPositive <;> simp_all [Browser.update]

/-- Any number of further `update()` calls on such a controller issue nothing. -/
theorem Browser.updates_settled (n : Nat) (s : Browser) (hu : s.isUrlDirty = false)
    (hd : (s.isDimensionsDirty && s.browserPixeldimensions.isPositive) = false)
    (hr : s.shouldReload = false) :
    Browser.updates n s = some (s, []) := by
  induction n with
  | zero => rfl
  | succ n ih => simp [Browser.updates, Browser.update_settled s hu hd hr, ih]

/-- After assigning `v`, the dimensions property holds `store v`. -/
theorem Browser.setBrowserPixelDimensions_value (store : Vec2 → Vec2) (v : Vec2)
    (s : Browser) :
    (Browser.setBrowserPixelDimensions store v s).browserPixeldimensions = store v := by
  unfold Browser.setBrowserPixelDimensions
  split
  · next h => exact h.symm
  · rfl

/-- Assigning the dimensions property never clears the dimensions flag. -/
theorem Browser.setBrowserPixelDimensions_keeps_flag (store : Vec2 → Vec2) (v : Vec2)
    (s : Browser) (h : s.isDimensionsDirty = true) :
    (Browser.setBrowserPixelDimensions store v s).isDimensionsDirty = true := by
  unfold Browser.setBrowserPixelDimensions
  split
  · exact h
  · rfl

/-- Assigning the dimensions property keeps the browser instance. -/
theorem Browser.setBrowserPixelDimensions_instance (store : Vec2 → Vec2) (v : Vec2)
    (s : Browser) :
    (Browser.setBrowserPixelDimensions store v s).browserInstance = s.browserInstance := by
  unfold Browser.setBrowserPixelDimensions
  split <;> rfl

/-- The state `update()` leaves behind is settled: a second `update()` has nothing
to do. -/
theorem Browser.update_then_settled (s s1 : Browser) (e1 : List Event)
    (h : Browser.update s = some (s1, e1)) :
    s1.isUrlDirty = false ∧
      (s1.isDimensionsDirty && s1.browserPixeldimensions.isPositive) = false ∧
      s1.shouldReload = false := by
  obtain ⟨url, dims, tex, fu, fd, fr, rh, inst⟩ := s
  cases fu <;> cases fd <;> cases fr <;> cases inst <;> cases hp : dims.isPositive <;>
    simp [Browser.update, hp] at h <;>
    (obtain ⟨rfl, rfl⟩ := h; simp [hp])

/-- Consecutive `update()` calls collapse to the first one: `n + 1` calls leave the
state and issue the effects of a single call. -/
theorem Browser.updates_succ (n : Nat) (s : Browser) (hi : s.browserInstance = true) :
    Browser.updates (n + 1) s = Browser.update s := by
  have h := Browser.update_eq s hi
  obtain ⟨hu, hd, hr⟩ := Browser.update_then_settled s _ _ h
  rw [Browser.updates, h]
  simp only [Option.some_bind]
  rw [Browser.updates_settled n _ hu hd hr]
  simp

/-- A controller with the dimensions flag set and strictly positive dimensions gets
exactly one `reshape`, with its dimensions, from `update()`, which clears the flag. -/
theorem Browser.update_reshape_once (s : Browser) (hi : s.browserInstance = true)
    (hd : s.isDimensionsDirty = true) (hp : s.browserPixeldimensions.isPositive = true) :
    ∃ s' calls, Browser.update s = some (s', calls) ∧
      calls.filter Event.isReshape = [Event.reshape s.browserPixeldimensions] ∧
      s'.isDimensionsDirty = false ∧
      s'.browserPixeldimensions = s.browserPixeldimensions := by
  refine ⟨_, _, Browser.update_eq s hi, ?_, ?_, rfl⟩
  · obtain ⟨url, dims, tex, fu, fd, fr, rh, inst⟩ := s
    simp only at hd hp
    subst hd
    cases fu <;> cases fr <;> simp [hp, Event.isReshape]
  · simp [hd, hp]

/-- C1: for every controller state, one call of update() issues to the content
instance exactly the subsequence of [loadUrl(url), reshape(dimensions),
reloadBrowser()] selected by urlDirty, (dimensionsDirty and both dimensions
strictly positive) and reloadRequested, in that order; afterwards each flag is its
old value with the flags whose call was issued cleared, so no flag is cleared
without its call and none is set, and every other field is unchanged. -/
theorem Browser.update_reconciles (s : Browser) (hi : s.browserInstance = true) :
    ∃ s' calls, Browser.update s = some (s', calls) ∧
      calls =
        ([(s.isUrlDirty, Event.loadUrl s.url),
          (s.isDimensionsDirty && (decide (0 < s.browserPixeldimensions.x) &&
              decide (0 < s.browserPixeldimensions.y)),
            Event.reshape s.browserPixeldimensions),
          (s.shouldReload, Event.reloadBrowser)].filter (fun c => c.1)).map (fun c => c.2) ∧
      s' = { s with
        isUrlDirty := s.isUrlDirty && !decide (Event.loadUrl s.url ∈ calls)
        isDimensionsDirty :=
          s.isDimensionsDirty && !decide (Event.reshape s.browserPixeldimensions ∈ calls)
        shouldReload := s.shouldReload && !decide (Event.reloadBrowser ∈ calls) } := by
  refine ⟨_, _, Browser.update_eq s hi, ?_, ?_⟩
  · obtain ⟨url, dims, tex, fu, fd, fr, rh, inst⟩ := s
    cases fu <;> cases fd <;> cases fr <;> cases hp : dims.isPositive <;>
      simp_all [Vec2.isPositive]
  · obtain ⟨url, dims, tex, fu, fd, fr, rh, inst⟩ := s
    cases fu <;> cases fd <;> cases fr <;> cases hp : dims.isPositive <;>
      simp_all [Vec2.isPositive]

/-- C9: idempotence of update(): for every controller state, a second update()
with no property change in between issues no call at all (no loadUrl, no reshape,
no reloadBrowser) and leaves the state unchanged. -/
theorem Browser.update_idempotent (s : Browser) (hi : s.browserInstance = true) :
    ∃ s1 calls1, Browser.update s = some (s1, calls1) ∧
      Browser.update s1 = some (s1, []) := by
  have h := Browser.update_eq s hi
  obtain ⟨hu, hd, hr⟩ := Browser.update_then_settled s _ _ h
  exact ⟨_, _, h, Browser.update_settled _ hu hd hr⟩

/-- C2: when dimensionsDirty is set and the target dimensions are non-positive in
at least one axis, any number n of consecutive update() calls issue no reshape
and leave dimensionsDirty set (and the dimensions as they are); once the
dimensions property is then assigned a value that it holds as strictly positive in
both axes, the next update() issues exactly one reshape, with those dimensions,
and clears the flag. -/
theorem Browser.update_defers_reshape (s : Browser) (n : Nat)
    (hi : s.browserInstance = true) (hd : s.isDimensionsDirty = true)
    (hn : ¬ (0 < s.browserPixeldimensions.x ∧ 0 < s.browserPixeldimensions.y)) :
    ∃ sn calls, Browser.updates n s = some (sn, calls) ∧
      (∀ d, Event.reshape d ∉ calls) ∧
      sn.isDimensionsDirty = true ∧
      sn.browserPixeldimensions = s.browserPixeldimensions ∧
      ∀ (store : Vec2 → Vec2) (d : Vec2), 0 < (store d).x → 0 < (store d).y →
        ∃ s' calls',
          Browser.update (Browser.setBrowserPixelDimensions store d sn) = some (s', calls') ∧
          calls'.filter Event.isReshape = [Event.reshape (store d)] ∧
          s'.isDimensionsDirty = false := by
  have hnp : s.browserPixeldimensions.isPositive = false := by
    simp only [Vec2.isPositive]
    by_contra hc
    simp at hc
    exact hn hc
  have key : ∃ sn calls, Browser.updates n s = some (sn, calls) ∧
      (∀ d, Event.reshape d ∉ calls) ∧ sn.isDimensionsDirty = true ∧
      sn.browserPixeldimensions = s.browserPixeldimensions ∧
      sn.browserInstance = true := by
    cases n with
    | zero => exact ⟨s, [], rfl, by simp, hd, rfl, hi⟩
    | succ n =>
      refine ⟨_, _, (Browser.updates_succ n s hi).trans (Browser.update_eq s hi), ?_, ?_, rfl, hi⟩
      · intro d
        cases hu : s.isUrlDirty <;> cases hr : s.shouldReload <;> simp [hnp]
      · simp [hd, hnp]
  obtain ⟨sn, calls, h1, h2, h3, h4, h5⟩ := key
  refine ⟨sn, calls, h1, h2, h3, h4, ?_⟩
  intro store d hx hy
  have hv := Browser.setBrowserPixelDimensions_value store d sn
  have hp : (Browser.setBrowserPixelDimensions store d sn).browserPixeldimensions.isPositive
      = true := by
    rw [hv]
    simp [Vec2.isPositive, hx, hy]
  obtain ⟨s', calls', g1, g2, g3, _⟩ :=
    Browser.update_reshape_once (Browser.setBrowserPixelDimensions store d sn)
      ((Browser.setBrowserPixelDimensions_instance store d sn).trans h5)
      (Browser.setBrowserPixelDimensions_keeps_flag store d sn h3) hp
  exact ⟨s', calls', g1, by rw [g2, hv], g3⟩

/-- The texture size is the pair of target dimensions whenever these fit an unsigned
32 bit component. -/
theorem textureSize_of_inRange (d : Vec2) (hx : 0 ≤ d.x) (hx' : d.x < 4294967296)
    (hy : 0 ≤ d.y) (hy' : d.y < 4294967296) :
    textureSize d = { x := d.x.toNat, y := d.y.toNat, z := 1 } := by
  simp [textureSize, toUInt32, Int.emod_eq_of_lt hx hx', Int.emod_eq_of_lt hy hy']

/-- C5: for every constructed controller with configured URL u, initializeGL()
allocates the texture at the current target dimensions (as converted to the
integer size of the texture, which is the dimensions themselves when they fit),
issues initialize() followed by exactly one loadUrl(u) to the content instance, and
returns true iff isReady() holds afterwards, where isReady() is exactly "a texture
handle is held": it holds although the render handler has received no frame. -/
theorem Browser.initializeGL_after_create (store : Vec2 → Vec2) (dictionary : Parameters)
    (windowDimensions : Vec2) (webBrowser : Bool) (glName : Nat) (u : String)
    (hu : dictionary.url = some u) :
    ∃ r s' calls,
      Browser.initializeGL glName
        (Browser.create store dictionary windowDimensions webBrowser).1 = some (r, s', calls) ∧
      s'.texture = some
        { dimensions := textureSize
            (Browser.create store dictionary windowDimensions webBrowser).1.browserPixeldimensions
          name := glName } ∧
      (0 ≤ s'.browserPixeldimensions.x ∧ s'.browserPixeldimensions.x < 4294967296 ∧
        0 ≤ s'.browserPixeldimensions.y ∧ s'.browserPixeldimensions.y < 4294967296 →
        s'.texture = some
          { dimensions :=
              { x := s'.browserPixeldimensions.x.toNat
                y := s'.browserPixeldimensions.y.toNat, z := 1 }
            name := glName }) ∧
      calls = [Event.textureCreated (textureSize s'.browserPixeldimensions),
        Event.browserInitialize, Event.loadUrl u] ∧
      (r = true ↔ s'.isReady = true) ∧
      s'.isReady = s'.texture.isSome ∧
      s'.isReady = true ∧
      s'.renderHandler.frameSize = none ∧
      s'.renderHandler.isTextureReady = false := by
  refine ⟨true, _, _, rfl, rfl, ?_, ?_, by simp [Browser.isReady], rfl, rfl, rfl, rfl⟩
  · rintro ⟨hx, hx', hy, hy'⟩
    simp only [Browser.create, RenderHandler.setTexture] at hx hx' hy hy' ⊢
    rw [textureSize_of_inRange _ hx hx' hy hy']
  · simp [Browser.create, hu, RenderHandler.setTexture]

/-- C6: for every initialized controller, deinitializeGL() first releases the GPU
texture (isReady() is false afterwards), then closes the content instance, then
unregisters the instance from the registry; when the registry cannot be found no
unregistration is issued, a warning is logged instead, and deinitializeGL() still
returns true. -/
theorem Browser.deinitializeGL_order (s : Browser) (t : Texture)
    (hi : s.browserInstance = true) (ht : s.texture = some t) :
    (∃ s', Browser.deinitializeGL true s = some (true, s',
        [Event.textureDestroyed t.name,
         Event.logDebug ("Deinitializing browser: " ++ s.url),
         Event.close true,
         Event.removeBrowser]) ∧
      s'.isReady = false ∧ s'.renderHandler.texture = 0) ∧
    (∃ s' calls, Browser.deinitializeGL false s = some (true, s', calls) ∧
      calls =
        [Event.textureDestroyed t.name,
         Event.logDebug ("Deinitializing browser: " ++ s.url),
         Event.close true,
         Event.logWarning "Could not find WebBrowserModule"] ∧
      Event.removeBrowser ∉ calls ∧
      s'.isReady = false ∧ s'.renderHandler.texture = 0) := by
  constructor
  · refine ⟨{ s with renderHandler := s.renderHandler.setTexture 0, texture := none,
                     browserInstance := false }, ?_, rfl, rfl⟩
    simp [Browser.deinitializeGL, hi, ht]
  · refine ⟨{ s with renderHandler := s.renderHandler.setTexture 0, texture := none },
      _, ?_, rfl, by simp, rfl, rfl⟩
    simp [Browser.deinitializeGL, hi, ht]

/-! ## Rendering -/

/-- C7: in every controller state in which the render handler does not report its
texture ready, render() is a no-op: it issues no texture update or other
collaborator call and changes no state (and it always returns); this is in
particular the case for a controller that has just been constructed. -/
theorem Browser.render_not_ready (updateTexture : RenderHandler → RenderHandler) :
    (∀ s : Browser, s.renderHandler.isTextureReady = false →
      Browser.render updateTexture s = (s, [])) ∧
    (∀ (store : Vec2 → Vec2) (dictionary : Parameters) (windowDimensions : Vec2)
        (webBrowser : Bool),
      Browser.render updateTexture
          (Browser.create store dictionary windowDimensions webBrowser).1 =
        ((Browser.create store dictionary windowDimensions webBrowser).1, [])) := by
  constructor
  · intro s h
    simp [Browser.render, h]
  · intro store dictionary windowDimensions webBrowser
    simp [Browser.render, Browser.create, RenderHandler.fresh]

/-- C8 (as the code has it): for every controller whose render handler reports
ready, render() issues exactly one updateTexture() to the render handler whatever
the size of the latest frame, leaves the texture object of the controller and its
target dimensions as they are, and leaves every flag, dimensionsDirty included, at
its previous value: render() never sets dimensionsDirty. -/
theorem Browser.render_ready (updateTexture : RenderHandler → RenderHandler) (s : Browser)
    (h : s.renderHandler.isTextureReady = true) :
    (Browser.render updateTexture s).2 = [Event.updateTexture] ∧
    (Browser.render updateTexture s).1.texture = s.texture ∧
    (Browser.render updateTexture s).1.browserPixeldimensions = s.browserPixeldimensions ∧
    (Browser.render updateTexture s).1.isDimensionsDirty = s.isDimensionsDirty ∧
    (Browser.render updateTexture s).1.isUrlDirty = s.isUrlDirty ∧
    (Browser.render updateTexture s).1.shouldReload = s.shouldReload := by
  simp [Browser.render, h]

/-- C8 (counterexample): a ready controller with a 500 by 500 texture whose latest
frame is 640 by 480 and whose dimensionsDirty is clear still has dimensionsDirty
clear after render(), which only asked the render handler to update the texture. -/
theorem Browser.render_mismatch_keeps_flag_clear :
    sampleReady.isReady = true ∧
    sampleReady.renderHandler.isTextureReady = true ∧
    sampleReady.renderHandler.frameSize = some (640, 480) ∧
    sampleReady.texture.map (fun t => (t.dimensions.x, t.dimensions.y)) = some (500, 500) ∧
    (Browser.render (fun h => h) sampleReady).2 = [Event.updateTexture] ∧
    (Browser.render (fun h => h) sampleReady).1.isDimensionsDirty = false := by
  refine ⟨rfl, rfl, rfl, rfl, rfl, rfl⟩

/-! ## Divergences of the constructor -/

/-- C4 (divergence): the constructor assigns the host window size to the
dimensions property after the configured dimensions, whatever the configuration
record supplies; with `dimensions = (500,500)` and a 1920 by 1080 window the target
dimensions are (1920,1080) and initializeGL() allocates a 1920 by 1080 texture. -/
theorem Browser.create_overrides_dimensions :
    (∀ (store : Vec2 → Vec2) (dictionary : Parameters) (windowDimensions : Vec2)
        (webBrowser : Bool),
      (Browser.create store dictionary windowDimensions webBrowser).1.browserPixeldimensions
        = store windowDimensions) ∧
    (Browser.create id sampleParameters sampleWindow true).1.browserPixeldimensions
      = { x := 1920, y := 1080 } ∧
    (Browser.create storeClamped sampleParameters sampleWindow true).1.browserPixeldimensions
      = { x := 1920, y := 1080 } ∧
    (Browser.initializeGL 7 (Browser.create id sampleParameters sampleWindow true).1).map
        (fun r => r.2.1.texture)
      = some (some { dimensions := { x := 1920, y := 1080, z := 1 }, name := 7 }) := by
  refine ⟨fun _ _ _ _ => rfl, rfl, by decide, by decide⟩

/-- C10 (divergence): the constructor never reads the reload option; with
`reload = true` the controller is constructed with reloadRequested clear and its
first update() issues no reloadBrowser() (it issues nothing). -/
theorem Browser.create_ignores_reload :
    (∀ (store : Vec2 → Vec2) (dictionary : Parameters) (windowDimensions : Vec2)
        (webBrowser : Bool),
      (Browser.create store dictionary windowDimensions webBrowser).1.shouldReload = false) ∧
    sampleReloadParameters.reload = some true ∧
    (Browser.create id sampleReloadParameters sampleWindow true).1.shouldReload = false ∧
    Browser.update (Browser.create id sampleReloadParameters sampleWindow true).1 =
      some ((Browser.create id sampleReloadParameters sampleWindow true).1, []) := by
  refine ⟨fun _ _ _ _ => rfl, rfl, rfl, ?_⟩
  exact Browser.update_settled _ rfl rfl rfl

/-! ## Instances at sample inputs -/

/-- Instance of C1 at `samplePending`: all three calls are issued, in order. -/
theorem Browser.update_reconciles_witness :
    samplePending.browserInstance = true ∧
    ∃ s' calls, Browser.update samplePending = some (s', calls) ∧
      calls = [Event.loadUrl "a.test", Event.reshape { x := 640, y := 480 },
        Event.reloadBrowser] ∧
      s'.isUrlDirty = false ∧ s'.isDimensionsDirty = false ∧ s'.shouldReload = false := by
  refine ⟨rfl, ?_⟩
  obtain ⟨s', calls, h1, h2, h3⟩ := Browser.update_reconciles samplePending rfl
  have hc : calls = [Event.loadUrl "a.test", Event.reshape { x := 640, y := 480 },
      Event.reloadBrowser] := by
    rw [h2]
    simp [samplePending]
  refine ⟨s', calls, h1, hc, ?_, ?_, ?_⟩ <;> (rw [h3, hc]; simp [samplePending])

/-- Instance of C9 at `samplePending`. -/
theorem Browser.update_idempotent_witness :
    samplePending.browserInstance = true ∧
    ∃ s1 calls1, Browser.update samplePending = some (s1, calls1) ∧
      Browser.update s1 = some (s1, []) :=
  ⟨rfl, Browser.update_idempotent samplePending rfl⟩

/-- Instance of C2 at `sampleDeferred`, dimensions (0,500), and three updates. -/
theorem Browser.update_defers_reshape_witness :
    sampleDeferred.browserInstance = true ∧
    sampleDeferred.isDimensionsDirty = true ∧
    ¬ (0 < sampleDeferred.browserPixeldimensions.x ∧
        0 < sampleDeferred.browserPixeldimensions.y) ∧
    ∃ sn calls, Browser.updates 3 sampleDeferred = some (sn, calls) ∧
      (∀ d, Event.reshape d ∉ calls) ∧
      sn.isDimensionsDirty = true ∧
      ∃ s' calls',
        Browser.update (Browser.setBrowserPixelDimensions id { x := 640, y := 480 } sn)
          = some (s', calls') ∧
        calls'.filter Event.isReshape = [Event.reshape { x := 640, y := 480 }] ∧
        s'.isDimensionsDirty = false := by
  have hn : ¬ (0 < sampleDeferred.browserPixeldimensions.x ∧
      0 < sampleDeferred.browserPixeldimensions.y) := by decide
  refine ⟨rfl, rfl, hn, ?_⟩
  obtain ⟨sn, calls, h1, h2, h3, _, h5⟩ :=
    Browser.update_defers_reshape sampleDeferred 3 rfl rfl hn
  exact ⟨sn, calls, h1, h2, h3, h5 id { x := 640, y := 480 } (by decide) (by decide)⟩

/-- Instance of C5 at the record `dimensions = (500,500), url = "a.test"`. -/
theorem Browser.initializeGL_after_create_witness :
    sampleParameters.url = some "a.test" ∧
    ∃ r s' calls,
      Browser.initializeGL 7 (Browser.create id sampleParameters sampleWindow true).1
        = some (r, s', calls) ∧
      calls = [Event.textureCreated (textureSize s'.browserPixeldimensions),
        Event.browserInitialize, Event.loadUrl "a.test"] ∧
      (r = true ↔ s'.isReady = true) := by
  refine ⟨rfl, ?_⟩
  obtain ⟨r, s', calls, h1, _, _, h4, h5, _⟩ :=
    Browser.initializeGL_after_create id sampleParameters sampleWindow true 7 "a.test" rfl
  exact ⟨r, s', calls, h1, h4, h5⟩

/-- Instance of C6 at `sampleReady`, whose texture has the GL name 7. -/
theorem Browser.deinitializeGL_order_witness :
    sampleReady.browserInstance = true ∧
    (∃ s', Browser.deinitializeGL true sampleReady = some (true, s',
        [Event.textureDestroyed 7,
         Event.logDebug ("Deinitializing browser: " ++ "a.test"),
         Event.close true,
         Event.removeBrowser]) ∧
      s'.isReady = false ∧ s'.renderHandler.texture = 0) :=
  ⟨rfl, (Browser.deinitializeGL_order sampleReady
    { dimensions := { x := 500, y := 500, z := 1 }, name := 7 } rfl rfl).1⟩

/-- Instance of C7 at `sampleDeferred`, whose render handler is not ready. -/
theorem Browser.render_not_ready_witness :
    sampleDeferred.renderHandler.isTextureReady = false ∧
    Browser.render (fun h => h) sampleDeferred = (sampleDeferred, []) :=
  ⟨rfl, (Browser.render_not_ready (fun h => h)).1 sampleDeferred rfl⟩

/-- Instance of C8 (as the code has it) at `sampleReady`. -/
theorem Browser.render_ready_witness :
    sampleReady.renderHandler.isTextureReady = true ∧
    (Browser.render (fun h => h) sampleReady).2 = [Event.updateTexture] ∧
    (Browser.render (fun h => h) sampleReady).1.isDimensionsDirty
      = sampleReady.isDimensionsDirty :=
  ⟨rfl, (Browser.render_ready (fun h => h) sampleReady rfl).1,
    (Browser.render_ready (fun h => h) sampleReady rfl).2.2.2.1⟩

end OpenSpace
